import Mathlib

/-!
Shallow embedding of `src/driver.c` (AsciiBird, a terminal Flappy Bird clone).
C `float`/`double` arithmetic is modelled as exact rational arithmetic; the
C cast from a floating value to `int` (truncation toward zero) is modelled by
`truncQ`.  C `int` is modelled by `Int` (no overflow occurs in the quantities
involved) and C integer division by `Int.tdiv` (truncation toward zero).
The C RNG call `rand()` is modelled by an explicit parameter `r : Int` with
`0 ≤ r ≤ INT_MAX` (glibc has `RAND_MAX = INT_MAX`).
-/

namespace AsciiBird

/-- C cast of a floating-point value to `int`: truncation toward zero. -/
def truncQ (q : ℚ) : Int := if q < 0 then -⌊-q⌋ else ⌊q⌋

/-- Gravitational acceleration constant (`const float GRAV = 0.05`). -/
def GRAV : ℚ := 1/20

/-- Initial velocity with up arrow press (`const float V0 = -0.5`). -/
def V0 : ℚ := -1/2

/-- Number of rows in the console window. -/
def NUM_ROWS : Int := 24

/-- Number of columns in the console window. -/
def NUM_COLS : Int := 80

/-- Radius of each vertical pipe. -/
def PIPE_RADIUS : Int := 3

/-- Width of the opening in each pipe. -/
def OPENING_WIDTH : Int := 7

/-- Flappy stays in this column. -/
def FLAPPY_COL : Int := 10

/-- Largest value of a C `int`; also glibc's `RAND_MAX`. -/
def INT_MAX : Int := 2147483647

/-- The `vpipe` struct: one vertical pipe obstacle. -/
structure vpipe where
  opening_height : ℚ
  center : Int
  deriving DecidableEq, Repr

/-- The `flappy` struct: the bird's launch state. -/
structure flappy where
  h0 : Int
  t : Int
  deriving DecidableEq, Repr

/-- The scorekeeping globals of `driver.c`: `score`, `sdigs`, `best_score`,
`bdigs`. -/
structure ScoreState where
  score : Int
  sdigs : Int
  best_score : Int
  bdigs : Int
  deriving DecidableEq, Repr

/-- The opening-height fraction drawn on a pipe respawn:
`rand() / ((float) INT_MAX) * 0.5 + 0.25` with `rand()` returning `r`. -/
def opening_from_rand (r : Int) : ℚ := (r : ℚ) / (INT_MAX : ℚ) * (1/2) + 1/4

/-- The score/digit update performed inside the wrap branch of `pipe_refresh`:
`score++;` followed by the `sdigs` digit-count bookkeeping. -/
def score_on_pass (s : ScoreState) : ScoreState :=
  { s with
    score := s.score + 1,
    sdigs :=
      if s.sdigs = 1 ∧ s.score + 1 > 9 then s.sdigs + 1
      else if s.sdigs = 2 ∧ s.score + 1 > 99 then s.sdigs + 1
      else s.sdigs }

/-- The function `pipe_refresh` of `driver.c`: if the pipe is sufficiently far
off-screen on the left (`center + PIPE_RADIUS < 0`), wrap its center to
`NUM_COLS + PIPE_RADIUS`, draw a fresh opening height from the RNG value `r`
and credit a pass; in every case decrement the center afterwards.  The
returned `Bool` records whether the wrap branch ran (a "passed" event). -/
def pipe_refresh (p : vpipe) (r : Int) (s : ScoreState) :
    vpipe × ScoreState × Bool :=
  let res :=
    if p.center + PIPE_RADIUS < 0 then
      ({ opening_height := opening_from_rand r, center := NUM_COLS + PIPE_RADIUS },
        score_on_pass s, true)
    else (p, s, false)
  ({ res.1 with center := res.1.center - 1 }, res.2)

/-- The function `get_orow` of `driver.c`: row number of the top (`top = true`)
or bottom (`top = false`) of the pipe's opening.  The C expression is
`p.opening_height * (NUM_ROWS - 1) - (top ? 1 : -1) * OPENING_WIDTH / 2`,
where `(top ? 1 : -1) * OPENING_WIDTH / 2` is C integer division (so `3`
for the top and `-3` for the bottom), and the floating result is truncated
to `int` on return. -/
def get_orow (p : vpipe) (top : Bool) : Int :=
  truncQ (p.opening_height * ((NUM_ROWS : ℚ) - 1) -
    ((((if top then 1 else -1) * OPENING_WIDTH).tdiv 2 : Int) : ℚ))

/-- The untruncated parabolic arc of `get_flappy_position`:
`f.h0 + V0 * f.t + 0.5 * GRAV * f.t * f.t`. -/
def flappy_arc (f : flappy) : ℚ :=
  (f.h0 : ℚ) + V0 * (f.t : ℚ) + (1/2) * GRAV * (f.t : ℚ) * (f.t : ℚ)

/-- The function `get_flappy_position` of `driver.c`: Flappy's height along
its parabolic arc, truncated to an `int` row count on return. -/
def get_flappy_position (f : flappy) : Int := truncQ (flappy_arc f)

/-- The function `crashed_into_pipe` of `driver.c`: returns `true` iff Flappy
crashed into the pipe `p`. -/
def crashed_into_pipe (f : flappy) (p : vpipe) : Bool :=
  if FLAPPY_COL ≥ p.center - PIPE_RADIUS - 1 ∧
      FLAPPY_COL ≤ p.center + PIPE_RADIUS + 1 then
    if get_flappy_position f ≥ get_orow p true + 1 ∧
        get_flappy_position f ≤ get_orow p false - 1 then
      false
    else
      true
  else
    false

/-- The ceiling/floor collision test at the top of `draw_flappy`:
`h <= 0 || h >= NUM_ROWS - 1`. -/
def hit_bounds (f : flappy) : Bool :=
  get_flappy_position f ≤ 0 ∨ get_flappy_position f ≥ NUM_ROWS - 1

-- Basic evaluation lemmas --------------------------------------------------

/-- Truncation of an integer is the integer itself. -/
theorem truncQ_intCast (n : Int) : truncQ (n : ℚ) = n := by
  unfold truncQ
  split
  · rw [← Int.cast_neg, Int.floor_intCast, neg_neg]
  · exact Int.floor_intCast n

/-- The top opening row computed with the integer half-width `3` made
explicit. -/
theorem get_orow_top (p : vpipe) :
    get_orow p true = truncQ (p.opening_height * 23 - 3) := by
  have h : (((if true then 1 else -1) : Int) * OPENING_WIDTH).tdiv 2 = 3 := by decide
  unfold get_orow
  rw [h]
  congr 1
  norm_num [NUM_ROWS]

/-- The bottom opening row computed with the integer half-width `3` made
explicit. -/
theorem get_orow_bot (p : vpipe) :
    get_orow p false = truncQ (p.opening_height * 23 + 3) := by
  have h : (((if false then 1 else -1) : Int) * OPENING_WIDTH).tdiv 2 = -3 := by decide
  unfold get_orow
  rw [h]
  congr 1
  push_cast
  norm_num [NUM_ROWS]

-- Game-loop model ----------------------------------------------------------

/-- The three kinds of key press distinguished by the `switch` in `main`'s
PLAYING loop: `'q'`, `KEY_UP`, and anything else (including no input). -/
inductive Key where
  | up
  | quit
  | other
  deriving DecidableEq, Repr

/-- The `KEY_UP` branch of `main`'s switch:
`f.h0 = get_flappy_position(f); f.t = 0;`. -/
def applyBoost (f : flappy) : flappy := { h0 := get_flappy_position f, t := 0 }

/-- The function `failure_screen` of `driver.c`, as a function of the blocking
decision key: `'q'` exits the process (`none`); any other key folds the
current score into the best score, updates the best-digit count, resets the
current score and its digit count, and restarts (`some`). -/
def failure_screen (s : ScoreState) (ch : Char) : Option ScoreState :=
  if ch = 'q' then none
  else
    let best := if s.score > s.best_score then s.score else s.best_score
    let bd :=
      if s.bdigs = 1 ∧ best > 9 then s.bdigs + 1
      else if s.bdigs = 2 ∧ best > 99 then s.bdigs + 1
      else s.bdigs
    some { score := 0, sdigs := 1, best_score := best, bdigs := bd }

/-- The mutable state touched by one iteration of `main`'s PLAYING loop. -/
structure GameState where
  p1 : vpipe
  p2 : vpipe
  f : flappy
  scores : ScoreState
  deriving DecidableEq, Repr

/-- Outcome of one PLAYING-loop iteration. -/
inductive TickResult where
  | terminated (g : GameState)
  | failed (g : GameState)
  | playing (g : GameState)
  deriving DecidableEq, Repr

/-- One iteration of `main`'s PLAYING loop: process the key (`'q'` exits
immediately, before any state update; `KEY_UP` boosts; the default branch
lets Flappy fall), then refresh both pipes (using RNG values `r1`, `r2`),
then run `draw_flappy`'s collision checks against the refreshed pipes. -/
def tick (g : GameState) (k : Key) (r1 r2 : Int) : TickResult :=
  match k with
  | .quit => .terminated g
  | k =>
    let f := match k with
      | .up => applyBoost g.f
      | _ => { g.f with t := g.f.t + 1 }
    let res1 := pipe_refresh g.p1 r1 g.scores
    let res2 := pipe_refresh g.p2 r2 res1.2.1
    let g' : GameState := ⟨res1.1, res2.1, f, res2.2.1⟩
    if hit_bounds f then .failed g'
    else if crashed_into_pipe f res1.1 || crashed_into_pipe f res2.1 then .failed g'
    else .playing g'

/-- Iterated `pipe_refresh` over a list of RNG values, recording the "passed"
flag of every call. -/
def refresh_trace (p : vpipe) (s : ScoreState) :
    List Int → vpipe × ScoreState × List Bool
  | [] => (p, s, [])
  | r :: rs =>
    let res := pipe_refresh p r s
    let rest := refresh_trace res.1 res.2.1 rs
    (rest.1, rest.2.1, res.2.2 :: rest.2.2)

/-- One play round, seen by the score state: some number `n` of pipe passes
followed by the failure screen with decision `ch`. -/
def runRound (s : ScoreState) (n : Nat) (ch : Char) : Option ScoreState :=
  failure_screen (score_on_pass^[n] s) ch

/-- A whole process run, seen by the score state: a sequence of rounds,
stopping (`none`) as soon as a failure screen receives `'q'`. -/
def runRounds (s : ScoreState) : List (Nat × Char) → Option ScoreState
  | [] => some s
  | (n, ch) :: rest =>
    match runRound s n ch with
    | none => none
    | some s' => runRounds s' rest

/-- Initial center of the first pipe, from `main`:
`p1.center = (int)(1.2 * (NUM_COLS - 1))`. -/
def p1_init_center : Int := truncQ ((12/10 : ℚ) * ((NUM_COLS : ℚ) - 1))

/-- Initial center of the second pipe, from `main`:
`p2.center = (int)(1.75 * (NUM_COLS - 1))`. -/
def p2_init_center : Int := truncQ ((175/100 : ℚ) * ((NUM_COLS : ℚ) - 1))

-- Helper lemmas -------------------------------------------------------------

/-- Unfolding of `pipe_refresh` when the wrap condition holds. -/
theorem pipe_refresh_wrap (p : vpipe) (r : Int) (s : ScoreState)
    (h : p.center + PIPE_RADIUS < 0) :
    pipe_refresh p r s =
      ({ opening_height := opening_from_rand r,
         center := NUM_COLS + PIPE_RADIUS - 1 }, score_on_pass s, true) := by
  simp [pipe_refresh, h]

/-- Unfolding of `pipe_refresh` when the wrap condition fails. -/
theorem pipe_refresh_no_wrap (p : vpipe) (r : Int) (s : ScoreState)
    (h : ¬ p.center + PIPE_RADIUS < 0) :
    pipe_refresh p r s = ({ p with center := p.center - 1 }, s, false) := by
  simp [pipe_refresh, h]

/-- The ceiling/floor test of `draw_flappy`, characterized. -/
theorem hit_bounds_iff (f : flappy) :
    hit_bounds f = true ↔
      get_flappy_position f ≤ 0 ∨ get_flappy_position f ≥ NUM_ROWS - 1 := by
  simp [hit_bounds]

/-- `crashed_into_pipe`, characterized: a crash happens exactly when Flappy's
column is within the pipe's horizontal band and its row is outside the open
interval of rows strictly inside the opening margins. -/
theorem crashed_iff (f : flappy) (p : vpipe) :
    crashed_into_pipe f p = true ↔
      (p.center - PIPE_RADIUS - 1 ≤ FLAPPY_COL ∧
        FLAPPY_COL ≤ p.center + PIPE_RADIUS + 1) ∧
      ¬ (get_orow p true + 1 ≤ get_flappy_position f ∧
          get_flappy_position f ≤ get_orow p false - 1) := by
  unfold crashed_into_pipe
  split
  · split
    · simp_all
    · simp_all [ge_iff_le]
  · simp_all [ge_iff_le]

/-- At zero ticks since launch the computed position is the launch height. -/
theorem gfp_h0 (n : Int) : get_flappy_position ⟨n, 0⟩ = n := by
  have h : flappy_arc ⟨n, 0⟩ = (n : ℚ) := by
    unfold flappy_arc
    push_cast
    ring
  unfold get_flappy_position
  rw [h, truncQ_intCast]

/-- Top opening row of a pipe with opening fraction `1/2`. -/
theorem orow_top_half (c : Int) : get_orow ⟨1/2, c⟩ true = 8 := by
  rw [get_orow_top]
  norm_num [truncQ]

/-- Bottom opening row of a pipe with opening fraction `1/2`. -/
theorem orow_bot_half (c : Int) : get_orow ⟨1/2, c⟩ false = 14 := by
  rw [get_orow_bot]
  norm_num [truncQ]

/-- Crash test against the Scenario-A pipe (opening fraction `1/2`, center at
Flappy's column), for an actor parked at row `n`. -/
theorem crashed_half_iff (n : Int) :
    crashed_into_pipe ⟨n, 0⟩ ⟨1/2, 10⟩ = true ↔ ¬ (9 ≤ n ∧ n ≤ 13) := by
  rw [crashed_iff, orow_top_half 10, orow_bot_half 10, gfp_h0 n]
  simp only [FLAPPY_COL, PIPE_RADIUS]
  omega

-- Claim theorems ------------------------------------------------------------

/-- Claim C1 (counterexample): the freshly drawn opening fraction does not
always lie in the half-open interval `[0.25, 0.75)`.  With the wrap condition
holding and `rand()` returning `INT_MAX` (which glibc's `rand` can return,
since `RAND_MAX = INT_MAX`), the drawn fraction is exactly `0.75`. -/
theorem C1_counterexample :
    ((⟨1/2, -4⟩ : vpipe).center + PIPE_RADIUS < 0) ∧
    (pipe_refresh ⟨1/2, -4⟩ INT_MAX ⟨0, 1, 0, 1⟩).1.opening_height = 3/4 ∧
    ¬ ((pipe_refresh ⟨1/2, -4⟩ INT_MAX ⟨0, 1, 0, 1⟩).1.opening_height < 3/4) := by
  refine ⟨by decide, ?_, ?_⟩
  · rw [pipe_refresh_wrap _ _ _ (by decide)]
    norm_num [opening_from_rand, INT_MAX]
  · rw [pipe_refresh_wrap _ _ _ (by decide)]
    norm_num [opening_from_rand, INT_MAX]

/-- Claim C1 (amended): `advance()` first checks `centerColumn + radius < 0`;
when it holds it wraps the center to `numColumns + radius`, draws a fresh
opening fraction lying in the closed interval `[0.25, 0.75]` (the right
endpoint is attained when `rand()` returns `INT_MAX = RAND_MAX`), and fires
exactly one passed event incrementing the score by 1; it then decrements the
center by 1 in every case, so after a wrap the center equals
`numColumns + radius - 1`, and without a wrap the center just decreases by 1
and the score state is untouched. -/
theorem C1_advance (p : vpipe) (r : Int) (s : ScoreState)
    (hr0 : 0 ≤ r) (hr1 : r ≤ INT_MAX) :
    (p.center + PIPE_RADIUS < 0 →
      (pipe_refresh p r s).1.center = NUM_COLS + PIPE_RADIUS - 1 ∧
      (pipe_refresh p r s).2.2 = true ∧
      (pipe_refresh p r s).2.1.score = s.score + 1 ∧
      1/4 ≤ (pipe_refresh p r s).1.opening_height ∧
      (pipe_refresh p r s).1.opening_height ≤ 3/4) ∧
    (¬ p.center + PIPE_RADIUS < 0 →
      (pipe_refresh p r s).1.center = p.center - 1 ∧
      (pipe_refresh p r s).2.2 = false ∧
      (pipe_refresh p r s).2.1 = s) := by
  constructor
  · intro hw
    rw [pipe_refresh_wrap p r s hw]
    refine ⟨rfl, rfl, rfl, ?_, ?_⟩
    · show (1 : ℚ)/4 ≤ opening_from_rand r
      have h0 : (0 : ℚ) ≤ (r : ℚ) / ((INT_MAX : Int) : ℚ) :=
        div_nonneg (by exact_mod_cast hr0) (by norm_num [INT_MAX])
      unfold opening_from_rand
      linarith
    · show opening_from_rand r ≤ 3/4
      have h1 : (r : ℚ) / ((INT_MAX : Int) : ℚ) ≤ 1 := by
        rw [div_le_one (by norm_num [INT_MAX])]
        exact_mod_cast hr1
      unfold opening_from_rand
      linarith
  · intro hw
    rw [pipe_refresh_no_wrap p r s hw]
    exact ⟨rfl, rfl, rfl⟩

/-- Claim C1 (witness): the amended advance theorem applied at a wrapping and
a non-wrapping concrete pipe. -/
theorem C1_advance_witness :
    (pipe_refresh ⟨1/2, -4⟩ 7 ⟨0, 1, 0, 1⟩).1.center = NUM_COLS + PIPE_RADIUS - 1 ∧
    (pipe_refresh ⟨1/2, 5⟩ 7 ⟨0, 1, 0, 1⟩).1.center = 4 :=
  ⟨((C1_advance ⟨1/2, -4⟩ 7 ⟨0, 1, 0, 1⟩ (by decide) (by decide)).1 (by decide)).1,
   ((C1_advance ⟨1/2, 5⟩ 7 ⟨0, 1, 0, 1⟩ (by decide) (by decide)).2 (by decide)).1⟩

/-- Claim C2: Flappy crashes against the world bounds iff its position is
`≤ 0` or `≥ NUM_ROWS - 1`; it crashes against a given pipe iff its fixed
column lies in `[center - radius - 1, center + radius + 1]` and its position
lies outside `[openingTopRow + 1, openingBottomRow - 1]`; outside that
horizontal band the pipe causes no crash regardless of vertical position. -/
theorem C2_collision (f : flappy) (p : vpipe) :
    (hit_bounds f = true ↔
      get_flappy_position f ≤ 0 ∨ get_flappy_position f ≥ NUM_ROWS - 1) ∧
    (crashed_into_pipe f p = true ↔
      (p.center - PIPE_RADIUS - 1 ≤ FLAPPY_COL ∧
        FLAPPY_COL ≤ p.center + PIPE_RADIUS + 1) ∧
      ¬ (get_orow p true + 1 ≤ get_flappy_position f ∧
          get_flappy_position f ≤ get_orow p false - 1)) ∧
    (¬ (p.center - PIPE_RADIUS - 1 ≤ FLAPPY_COL ∧
        FLAPPY_COL ≤ p.center + PIPE_RADIUS + 1) →
      crashed_into_pipe f p = false) := by
  refine ⟨hit_bounds_iff f, crashed_iff f p, fun hband => ?_⟩
  rw [← Bool.not_eq_true, crashed_iff]
  tauto

/-- Claim C2 (witness): an actor far outside a pipe's horizontal band does not
crash into it, whatever its row. -/
theorem C2_collision_witness : crashed_into_pipe ⟨0, 0⟩ ⟨1/2, 40⟩ = false :=
  (C2_collision ⟨0, 0⟩ ⟨1/2, 40⟩).2.2 (by decide)

/-- Claim C3 (counterexample): in Scenario A (radius 3, opening width 7,
24 rows, opening fraction `1/2`, pipe centered at Flappy's column), the
opening rows computed by the code are `8` and `14` (not `10.5` and `15.0`),
and an in-band actor at row `10` does NOT crash, contrary to the claim. -/
theorem C3_counterexample :
    get_flappy_position ⟨10, 0⟩ = 10 ∧
    ((⟨1/2, 10⟩ : vpipe).center - PIPE_RADIUS - 1 ≤ FLAPPY_COL ∧
      FLAPPY_COL ≤ (⟨1/2, 10⟩ : vpipe).center + PIPE_RADIUS + 1) ∧
    crashed_into_pipe ⟨10, 0⟩ ⟨1/2, 10⟩ = false ∧
    get_orow ⟨1/2, 10⟩ true = 8 ∧
    get_orow ⟨1/2, 10⟩ false = 14 := by
  refine ⟨gfp_h0 10, by decide, ?_, orow_top_half 10, orow_bot_half 10⟩
  rw [← Bool.not_eq_true, crashed_half_iff]
  decide

/-- Claim C3 (amended): with radius 3, opening width 7 and 24 rows, an
obstacle with opening fraction `0.5` has `openingTopRow = 8` and
`openingBottomRow = 14` (the code computes with the integer half-width
`7 / 2 = 3` and truncates the result to `int`); an actor inside the band does
not crash at row 12, and does not crash at row 10 either; the nearest rows at
which it does crash are 8 and 14. -/
theorem C3_scenario :
    get_orow ⟨1/2, 10⟩ true = 8 ∧
    get_orow ⟨1/2, 10⟩ false = 14 ∧
    crashed_into_pipe ⟨12, 0⟩ ⟨1/2, 10⟩ = false ∧
    crashed_into_pipe ⟨10, 0⟩ ⟨1/2, 10⟩ = false ∧
    crashed_into_pipe ⟨8, 0⟩ ⟨1/2, 10⟩ = true ∧
    crashed_into_pipe ⟨14, 0⟩ ⟨1/2, 10⟩ = true := by
  refine ⟨orow_top_half 10, orow_bot_half 10, ?_, ?_, ?_, ?_⟩
  · rw [← Bool.not_eq_true, crashed_half_iff]; decide
  · rw [← Bool.not_eq_true, crashed_half_iff]; decide
  · rw [crashed_half_iff]; decide
  · rw [crashed_half_iff]; decide

/-- Opening row per the spec's words (for the refinement comparison of C4):
real-valued `openingFraction * (numRows - 1) ∓ openingWidth / 2` with the
exact half-width `7/2 = 3.5`; top subtracts, bottom adds. -/
def openingRowSpec (p : vpipe) (top : Bool) : ℚ :=
  p.opening_height * ((NUM_ROWS : ℚ) - 1) -
    (if top then 1 else -1) * ((OPENING_WIDTH : ℚ) / 2)

/-- Claim C4 (counterexample): at opening fraction `1/2` the spec formula with
half-width `3.5` gives a bottom opening row of `15`, but the code's
`get_orow` returns `14`: the code divides `OPENING_WIDTH` by 2 in integer
arithmetic (getting 3) and truncates the floating result to `int`. -/
theorem C4_counterexample :
    ((get_orow ⟨1/2, 0⟩ false : Int) : ℚ) ≠ openingRowSpec ⟨1/2, 0⟩ false ∧
    openingRowSpec ⟨1/2, 0⟩ false = 15 ∧
    get_orow ⟨1/2, 0⟩ false = 14 := by
  have h : get_orow ⟨1/2, 0⟩ false = 14 := orow_bot_half 0
  have h2 : openingRowSpec ⟨1/2, 0⟩ false = 15 := by
    unfold openingRowSpec
    norm_num [NUM_ROWS, OPENING_WIDTH]
  exact ⟨by rw [h, h2]; norm_num, h2, h⟩

/-- Claim C4 (amended): for every pipe, `openingTopRow()` equals the
truncation to `int` of `openingFraction * (numRows - 1)` minus the integer
half-width `openingWidth / 2 = 3`, and `openingBottomRow()` equals the
truncation of the same quantity plus 3: top subtracts, bottom adds. -/
theorem C4_opening_rows (p : vpipe) :
    get_orow p true = truncQ (p.opening_height * ((NUM_ROWS : ℚ) - 1) - 3) ∧
    get_orow p false = truncQ (p.opening_height * ((NUM_ROWS : ℚ) - 1) + 3) := by
  constructor
  · rw [get_orow_top]
    congr 1
    norm_num [NUM_ROWS]
  · rw [get_orow_bot]
    congr 1
    norm_num [NUM_ROWS]

/-- Claim C5: applying a boost sets the launch height to the currently
computed position and resets the tick counter to 0, so immediately after the
boost the computed position equals the height at the time of the press and
`ticksSinceLaunch = 0`. -/
theorem C5_boost (f : flappy) :
    (applyBoost f).h0 = get_flappy_position f ∧
    (applyBoost f).t = 0 ∧
    get_flappy_position (applyBoost f) = get_flappy_position f := by
  refine ⟨rfl, rfl, ?_⟩
  show get_flappy_position ⟨get_flappy_position f, 0⟩ = get_flappy_position f
  exact gfp_h0 _

/-- The exact arc value of Scenario B: `12 - 2.5 + 0.625 = 10.125 = 81/8`. -/
theorem arc_12_5 : flappy_arc ⟨12, 5⟩ = 81/8 := by
  unfold flappy_arc
  norm_num [V0, GRAV]

/-- The code's position in Scenario B: the arc value `10.125` truncated. -/
theorem gfp_12_5 : get_flappy_position ⟨12, 5⟩ = 10 := by
  unfold get_flappy_position
  rw [arc_12_5]
  norm_num [truncQ]

/-- Claim C6 (counterexample): after 5 input-free ticks from launch height 12
the code's `get_flappy_position` does not equal `10.125`: it returns an `int`
row count, namely `10`. -/
theorem C6_counterexample :
    flappy_arc ⟨12, 5⟩ = 81/8 ∧
    ((get_flappy_position ⟨12, 5⟩ : Int) : ℚ) ≠ 81/8 := by
  refine ⟨arc_12_5, ?_⟩
  rw [gfp_12_5]
  norm_num

/-- Claim C6 (amended): with `launchHeight = 12`, `ticksSinceLaunch = 5`,
`GRAV = 0.05` and `V0 = -0.5`, the exact kinematic value
`12 - 2.5 + 0.625` equals `10.125`, and `get_flappy_position`, which
truncates the arc to an integer row count, returns `10`. -/
theorem C6_position_after_5 :
    flappy_arc ⟨12, 5⟩ = 81/8 ∧ get_flappy_position ⟨12, 5⟩ = 10 :=
  ⟨arc_12_5, gfp_12_5⟩

/-- Unfolding of `failure_screen` on a non-quit (restart) decision. -/
theorem failure_screen_restart (s : ScoreState) (ch : Char) (s' : ScoreState)
    (h : failure_screen s ch = some s') :
    s'.best_score = max s.best_score s.score ∧ s'.score = 0 ∧
    s.best_score ≤ s'.best_score := by
  unfold failure_screen at h
  by_cases hq : ch = 'q'
  · simp [hq] at h
  · simp only [hq, if_false, Option.some.injEq] at h
    subst h
    refine ⟨?_, rfl, ?_⟩
    · show (if s.score > s.best_score then s.score else s.best_score) =
        max s.best_score s.score
      split <;> omega
    · show s.best_score ≤
        (if s.score > s.best_score then s.score else s.best_score)
      split <;> omega

/-- Passing a pipe never touches the best score. -/
theorem score_on_pass_best (s : ScoreState) :
    (score_on_pass s).best_score = s.best_score := rfl

/-- Any number of pipe passes never touches the best score. -/
theorem iterate_pass_best (n : Nat) (s : ScoreState) :
    (score_on_pass^[n] s).best_score = s.best_score := by
  induction n generalizing s with
  | zero => rfl
  | succ n ih =>
    rw [Function.iterate_succ_apply, ih, score_on_pass_best]

/-- The best score never decreases across any sequence of completed rounds. -/
theorem runRounds_best_mono (rounds : List (Nat × Char)) (s s2 : ScoreState)
    (h : runRounds s rounds = some s2) : s.best_score ≤ s2.best_score := by
  induction rounds generalizing s with
  | nil =>
    simp only [runRounds, Option.some.injEq] at h
    subst h
    exact le_refl _
  | cons hd tl ih =>
    obtain ⟨n, ch⟩ := hd
    unfold runRounds at h
    cases hr : runRound s n ch with
    | none => rw [hr] at h; cases h
    | some s' =>
      rw [hr] at h
      have h1 := ih s' h
      have h2 : s.best_score ≤ s'.best_score := by
        unfold runRound at hr
        have h3 := (failure_screen_restart _ _ _ hr).2.2
        rw [iterate_pass_best] at h3
        exact h3
      exact le_trans h2 h1

/-- Claim C7: on a failure transition that restarts, the best score is set to
`max(best, current)` and the current score is reset to 0; a pipe pass never
touches the best score; and across every sequence of restarts within one
process run the best score never decreases. -/
theorem C7_score_fold (s s' : ScoreState) (ch : Char)
    (rounds : List (Nat × Char)) (s2 : ScoreState) :
    (failure_screen s ch = some s' →
      s'.best_score = max s.best_score s.score ∧ s'.score = 0) ∧
    ((score_on_pass s).best_score = s.best_score) ∧
    (runRounds s rounds = some s2 → s.best_score ≤ s2.best_score) :=
  ⟨fun h => ⟨(failure_screen_restart s ch s' h).1,
    (failure_screen_restart s ch s' h).2.1⟩,
   score_on_pass_best s,
   fun h => runRounds_best_mono rounds s s2 h⟩

/-- Claim C7 (witness): a concrete restart with current score 5 and best score
3 folds the best score to `max 3 5` and resets the current score, and a
concrete one-round run does not decrease the best score. -/
theorem C7_score_fold_witness :
    ((⟨0, 1, 5, 1⟩ : ScoreState).best_score = max 3 5 ∧
      (⟨0, 1, 5, 1⟩ : ScoreState).score = 0) ∧
    (⟨5, 1, 3, 1⟩ : ScoreState).best_score ≤
      (⟨0, 1, 5, 1⟩ : ScoreState).best_score := by
  have h := C7_score_fold ⟨5, 1, 3, 1⟩ ⟨0, 1, 5, 1⟩ 'r' [(0, 'r')] ⟨0, 1, 5, 1⟩
  exact ⟨h.1 (by decide), h.2.2 (by decide)⟩

/-- Claim C8: a pipe starting at center 4 (radius 3) undergoes 8 advances
without a respawn, reaching center `-4` with no passed event and an unchanged
score; the 9th advance wraps the center to `numColumns + radius` (hence, after
the unconditional decrement, `numColumns + radius - 1`) and fires exactly one
passed event, incrementing the score once. -/
theorem C8_scenario :
    (refresh_trace ⟨1/2, 4⟩ ⟨0, 1, 0, 1⟩ (List.replicate 8 0)).1.center = -4 ∧
    (refresh_trace ⟨1/2, 4⟩ ⟨0, 1, 0, 1⟩ (List.replicate 8 0)).2.2 =
      List.replicate 8 false ∧
    (refresh_trace ⟨1/2, 4⟩ ⟨0, 1, 0, 1⟩ (List.replicate 8 0)).2.1.score = 0 ∧
    (refresh_trace ⟨1/2, 4⟩ ⟨0, 1, 0, 1⟩ (List.replicate 9 0)).1.center =
      NUM_COLS + PIPE_RADIUS - 1 ∧
    (refresh_trace ⟨1/2, 4⟩ ⟨0, 1, 0, 1⟩ (List.replicate 9 0)).2.2 =
      List.replicate 8 false ++ [true] ∧
    (refresh_trace ⟨1/2, 4⟩ ⟨0, 1, 0, 1⟩ (List.replicate 9 0)).2.1.score = 1 := by
  refine ⟨?_, ?_, ?_, ?_, ?_, ?_⟩ <;> decide

/-- Claim C9: a quit input during PLAYING makes the loop exit immediately,
before any pipe refresh, score update or collision handling: the tick result
is termination with the game state (best score included) unchanged. -/
theorem C9_quit (g : GameState) (r1 r2 : Int) :
    tick g Key.quit r1 r2 = TickResult.terminated g := rfl

/-- One `pipe_refresh` call preserves the lower bound `-(radius + 1)` on the
pipe center. -/
theorem refresh_center_lb (p : vpipe) (r : Int) (s : ScoreState)
    (h : -(PIPE_RADIUS + 1) ≤ p.center) :
    -(PIPE_RADIUS + 1) ≤ (pipe_refresh p r s).1.center := by
  by_cases hw : p.center + PIPE_RADIUS < 0
  · rw [pipe_refresh_wrap p r s hw]
    show -(PIPE_RADIUS + 1) ≤ NUM_COLS + PIPE_RADIUS - 1
    decide
  · rw [pipe_refresh_no_wrap p r s hw]
    show -(PIPE_RADIUS + 1) ≤ p.center - 1
    simp only [PIPE_RADIUS] at hw h ⊢
    omega

/-- Iterated `pipe_refresh` preserves the lower bound `-(radius + 1)` on the
pipe center. -/
theorem refresh_trace_center_lb (rs : List Int) (p : vpipe) (s : ScoreState)
    (h : -(PIPE_RADIUS + 1) ≤ p.center) :
    -(PIPE_RADIUS + 1) ≤ (refresh_trace p s rs).1.center := by
  induction rs generalizing p s with
  | nil => exact h
  | cons r rs ih =>
    exact ih (pipe_refresh p r s).1 (pipe_refresh p r s).2.1
      (refresh_center_lb p r s h)

/-- Claim C10: both initial spawn centers are at or above `-(radius + 1)`;
any pipe whose center is at or above `-(radius + 1) = -4` keeps satisfying
that bound after any number of `advance()` calls; and a pipe sitting exactly
at `-4` wraps (is respawned, with a passed event) on its very next advance. -/
theorem C10_center_bound :
    (-(PIPE_RADIUS + 1) ≤ p1_init_center ∧ -(PIPE_RADIUS + 1) ≤ p2_init_center) ∧
    (∀ (p : vpipe) (s : ScoreState) (rs : List Int),
      -(PIPE_RADIUS + 1) ≤ p.center →
      -(PIPE_RADIUS + 1) ≤ (refresh_trace p s rs).1.center) ∧
    (∀ (p : vpipe) (r : Int) (s : ScoreState),
      p.center = -(PIPE_RADIUS + 1) → (pipe_refresh p r s).2.2 = true) := by
  refine ⟨⟨?_, ?_⟩, fun p s rs h => refresh_trace_center_lb rs p s h,
    fun p r s h => ?_⟩
  · have h1 : p1_init_center = 94 := by
      unfold p1_init_center
      norm_num [NUM_COLS, truncQ]
    rw [h1]; decide
  · have h2 : p2_init_center = 138 := by
      unfold p2_init_center
      norm_num [NUM_COLS, truncQ]
    rw [h2]; decide
  · have hw : p.center + PIPE_RADIUS < 0 := by
      simp only [PIPE_RADIUS] at h ⊢
      omega
    rw [pipe_refresh_wrap p r s hw]

/-- Claim C10 (witness): the invariant and the forced-wrap fact applied at
concrete pipes with center `-4`. -/
theorem C10_center_bound_witness :
    -(PIPE_RADIUS + 1) ≤ (refresh_trace ⟨1/2, -4⟩ ⟨0, 1, 0, 1⟩ [5, 6]).1.center ∧
    (pipe_refresh ⟨1/2, -4⟩ 7 ⟨0, 1, 0, 1⟩).2.2 = true :=
  ⟨C10_center_bound.2.1 ⟨1/2, -4⟩ ⟨0, 1, 0, 1⟩ [5, 6] (by decide),
   C10_center_bound.2.2 ⟨1/2, -4⟩ 7 ⟨0, 1, 0, 1⟩ (by decide)⟩

end AsciiBird
